import Mathlib

/-!
Verification development for the financial-news-classifier repository.

The source under scrutiny is `src/core/infer.py`, `src/core/io_utils.py`
and `src/core/rss.py`.  Pure control flow is translated directly; the
external machine-learning framework (tokenizer, forward pass, softmax) is
abstracted as a function `probsOf : String → List ℚ` giving, for each
trimmed input text, the per-class probability vector produced by the
framework's softmax, and the label encoder is abstracted as a list of
class names indexed by class index.  External effects (file system,
network, model hub) are passed in explicitly as environments.
-/

/-- Characters removed by Python's `str.strip()` with no argument
(whitespace). -/
def stripChars (l : List Char) : List Char :=
  ((l.dropWhile Char.isWhitespace).reverse.dropWhile Char.isWhitespace).reverse

/-- Models Python's `str.strip()`: drop leading and trailing whitespace. -/
def pyStrip (s : String) : String := ⟨stripChars s.data⟩

/-- Strict comparison of rationals by cross multiplication (denominators
are positive), as a computable Boolean.  Agrees with `<` on `ℚ` by
`Rat.lt_def`. -/
def qlt (a b : ℚ) : Bool := decide (a.num * (b.den : ℤ) < b.num * (a.den : ℤ))

/-- Banker's rounding of `q * 10^4` to an integer, computed on the
numerator and denominator.  Models Python's built-in `round(x, 4)`
mantissa step (round half to even) used by `infer.py`. -/
def roundHalfEven4 (q : ℚ) : ℤ :=
  let n := q.num * 10000
  let d := (q.den : ℤ)
  let fl := n.fdiv d
  let r := n - fl * d
  if 2 * r < d then fl
  else if d < 2 * r then fl + 1
  else if fl % 2 = 0 then fl else fl + 1

/-- Models `round(x, 4)` from `infer.py` (4 decimal digits). -/
def round4 (q : ℚ) : ℚ := mkRat (roundHalfEven4 q) 10000

/-- Index of the first maximal element of a probability vector.  Models
`torch.argmax(probs, dim=-1)` in `infer.py` (first index on ties). -/
def argmaxIdx : List ℚ → Nat
  | [] => 0
  | [_] => 0
  | x :: y :: ys =>
    if qlt x ((y :: ys).getD (argmaxIdx (y :: ys)) 0) then argmaxIdx (y :: ys) + 1 else 0

/-- Maximum of a probability vector (0 for the empty vector, which the
source never produces).  Models `torch.max(probs, dim=-1)[0]`. -/
def maxD : List ℚ → ℚ
  | [] => 0
  | x :: xs => xs.foldl (fun a b => if qlt a b then b else a) x

/-- Contiguous chunks of size `bs`, with structural fuel bounded by the
list length (each step removes at least one element when `0 < bs`).
Models the loop `for i in range(0, len(valid_texts), batch_size)` of
`predict_batch`. -/
def chunksAux (bs : Nat) : Nat → List α → List (List α)
  | _, [] => []
  | 0, _ :: _ => []
  | fuel + 1, x :: xs => ((x :: xs).take bs) :: chunksAux bs fuel ((x :: xs).drop bs)

/-- Split a list into contiguous chunks of size `bs`. -/
def chunks (bs : Nat) (xs : List α) : List (List α) := chunksAux bs xs.length xs

/-- Result of `predict` in `infer.py`: sentiment label, confidence and the
full per-class score mapping (a Python dict in class-index order, modelled
as an association list in that order). -/
structure PredOut where
  sentiment : String
  confidence : ℚ
  scores : List (String × ℚ)
deriving DecidableEq, Repr

/-- Shallow embedding of `predict` (`infer.py`, lines 116-182).
`labels` models the label encoder (`inverse_transform` of an index is the
list entry at that index); `probsOf` models tokenisation, the forward pass
and softmax of the external framework applied to the stripped text.
Mirrors the source exactly: the text is stripped, an empty result is an
error; the sentiment is the label of the argmax index; the confidence is
the probability at the argmax index rounded to 4 digits; the scores are
the unrounded probabilities keyed by label in index order. -/
def predict (labels : List String) (probsOf : String → List ℚ) (text : String) :
    Except String PredOut :=
  if pyStrip text = "" then .error "Text cannot be empty"
  else
    let probs := probsOf (pyStrip text)
    let pred_idx := argmaxIdx probs
    .ok { sentiment := labels.getD pred_idx ""
          confidence := round4 (probs.getD pred_idx 0)
          scores := (List.range probs.length).map (fun i => (labels.getD i "", probs.getD i 0)) }

/-- One row of the `predict_batch` output in `infer.py`. -/
structure BatchRecord where
  text : String
  sentiment : String
  confidence : ℚ
deriving DecidableEq, Repr

/-- The record built for one surviving text inside the batch loop of
`predict_batch` (`infer.py`, lines 239-245): label of the argmax index,
confidence from `torch.max` rounded to 4 digits. -/
def mkBatchRecord (labels : List String) (probsOf : String → List ℚ) (t : String) :
    BatchRecord :=
  let probs := probsOf t
  { text := t
    sentiment := labels.getD (argmaxIdx probs) ""
    confidence := round4 (maxD probs) }

/-- Shallow embedding of `predict_batch` (`infer.py`, lines 185-252).
Mirrors the source's validation order: empty list error first, then the
filter `[str(t).strip() for t in texts if t]` (truthiness is tested on
the raw entry BEFORE stripping), then the per-chunk loop.  A zero batch
size makes Python's `range` raise inside the try block, surfaced as the
wrapped runtime error. -/
def predict_batch (labels : List String) (probsOf : String → List ℚ)
    (texts : List String) (batch_size : Nat) : Except String (List BatchRecord) :=
  if texts = [] then .error "Texts list cannot be empty"
  else
    let valid_texts := (texts.filter (fun t => !(t == ""))).map pyStrip
    if valid_texts = [] then .error "No valid texts found"
    else if batch_size = 0 then
      .error "Batch prediction failed: range() arg 3 must not be zero"
    else
      .ok (((chunks batch_size valid_texts).map
        (fun b => b.map (mkBatchRecord labels probsOf))).flatten)

/- ----- helper lemmas ----- -/

theorem chunksAux_flatten (bs : Nat) (hbs : 0 < bs) :
    ∀ (fuel : Nat) (xs : List α), xs.length ≤ fuel → (chunksAux bs fuel xs).flatten = xs := by
  intro fuel
  induction fuel with
  | zero =>
    intro xs h
    cases xs with
    | nil => rfl
    | cons x xs => simp at h
  | succ n ih =>
    intro xs h
    cases xs with
    | nil => rfl
    | cons x xs =>
      simp only [chunksAux, List.flatten_cons]
      rw [ih ((x :: xs).drop bs) (by
        simp only [List.length_drop, List.length_cons] at h ⊢
        omega)]
      exact List.take_append_drop bs (x :: xs)

theorem chunks_flatten (bs : Nat) (hbs : 0 < bs) (xs : List α) :
    (chunks bs xs).flatten = xs :=
  chunksAux_flatten bs hbs xs.length xs le_rfl

theorem map_flatten_map (f : α → β) (l : List (List α)) :
    (l.map (fun b => b.map f)).flatten = l.flatten.map f := by
  induction l with
  | nil => rfl
  | cons b l ih =>
    simp only [List.map_cons, List.flatten_cons, ih, List.map_append]

/- ----- C1 / C2 : predict_batch filtering, ordering, rejection ----- -/

/-- Claim C1 counterexample: the claim says a whitespace-only entry is
dropped and not reported, so `predict_batch` on the single whitespace-only
text `"  "` would have to report no record for it (the input has zero
non-empty trimmed texts).  The code filters on truthiness BEFORE
stripping, so `"  "` survives, is stripped to `""`, and one record with
empty text is returned. -/
theorem predict_batch_whitespace_counterexample :
    predict_batch ["Neutral"] (fun _ => [1]) ["  "] 32 =
      .ok [{ text := "", sentiment := "Neutral", confidence := 1 }] ∧
    (["  "].map pyStrip).filter (fun t => !(t == "")) = [] :=
  ⟨rfl, rfl⟩

/-- Claim C1 (amended): for every accepted input list, `predict_batch`
returns exactly one record per entry that is non-empty BEFORE trimming
(Python truthiness), in the same relative order as those entries appear
in the input; each record carries the stripped text.  Entries equal to
`""` are dropped, but whitespace-only entries are retained — stripped to
the empty string — and reported. -/
theorem predict_batch_order (labels : List String) (probsOf : String → List ℚ)
    (texts : List String) (bs : Nat)
    (h1 : texts ≠ []) (h2 : texts.filter (fun t => !(t == "")) ≠ []) (hbs : 0 < bs) :
    predict_batch labels probsOf texts bs =
      .ok (((texts.filter (fun t => !(t == ""))).map pyStrip).map
        (mkBatchRecord labels probsOf)) := by
  have hv : (texts.filter (fun t => !(t == ""))).map pyStrip ≠ [] := by
    simpa using h2
  simp only [predict_batch, if_neg h1, if_neg hv, if_neg (Nat.pos_iff_ne_zero.mp hbs)]
  rw [map_flatten_map, chunks_flatten bs hbs]

/-- Claim C1 witness: a concrete run of the amended theorem.  The input
`["up", "", "  ", "down"]` has the empty entry dropped; the whitespace
entry and the two real texts survive, in order. -/
theorem predict_batch_order_witness :
    predict_batch ["Neutral"] (fun _ => [1]) ["up", "", "  ", "down"] 32 =
      .ok (((["up", "", "  ", "down"].filter (fun t => !(t == ""))).map pyStrip).map
        (mkBatchRecord ["Neutral"] (fun _ => [1]))) :=
  predict_batch_order ["Neutral"] (fun _ => [1]) ["up", "", "  ", "down"] 32
    (by decide) (by decide) (by decide)

/-- Claim C2 counterexample: the claim says `predictMany(["", "  "])`
fails with InvalidInput.  In the code the whitespace-only entry `"  "` is
truthy, survives the filter, and is stripped to `""`; the surviving list
`[""]` is non-empty, so no error is raised and one record is produced. -/
theorem predict_batch_accepts_whitespace_counterexample :
    predict_batch ["Neutral"] (fun _ => [1]) ["", "  "] 32 =
      .ok [{ text := "", sentiment := "Neutral", confidence := 1 }] :=
  rfl

/-- Claim C2 (amended): `predict_batch` fails with InvalidInput
(`ValueError`) exactly when the input list is empty or every entry is the
empty string: truthiness is tested before stripping, so a list containing
a whitespace-only entry is accepted.  With a positive batch size every
other input yields a result list. -/
theorem predict_batch_invalid_input (labels : List String)
    (probsOf : String → List ℚ) (texts : List String) (bs : Nat) :
    (texts = [] →
      predict_batch labels probsOf texts bs = .error "Texts list cannot be empty") ∧
    (texts ≠ [] → texts.filter (fun t => !(t == "")) = [] →
      predict_batch labels probsOf texts bs = .error "No valid texts found") ∧
    (texts.filter (fun t => !(t == "")) ≠ [] → 0 < bs →
      ∃ rs, predict_batch labels probsOf texts bs = .ok rs) := by
  refine ⟨fun h => by simp [predict_batch, h], fun h1 h2 => ?_, fun h hbs => ?_⟩
  · simp [predict_batch, if_neg h1, h2]
  · have h1 : texts ≠ [] := by
      intro h0
      rw [h0] at h
      exact h rfl
    exact ⟨_, predict_batch_order labels probsOf texts bs h1 h hbs⟩

/-- Claim C2 witness: the amended theorem applied at concrete inputs —
`[]` and `["", ""]` are rejected, `["", "  "]` is accepted. -/
theorem predict_batch_invalid_input_witness :
    predict_batch ["Neutral"] (fun _ => [1]) [] 32 = .error "Texts list cannot be empty" ∧
    predict_batch ["Neutral"] (fun _ => [1]) ["", ""] 32 = .error "No valid texts found" ∧
    ∃ rs, predict_batch ["Neutral"] (fun _ => [1]) ["", "  "] 32 = .ok rs :=
  ⟨(predict_batch_invalid_input ["Neutral"] (fun _ => [1]) [] 32).1 rfl,
   (predict_batch_invalid_input ["Neutral"] (fun _ => [1]) ["", ""] 32).2.1
     (by decide) (by decide),
   (predict_batch_invalid_input ["Neutral"] (fun _ => [1]) ["", "  "] 32).2.2
     (by decide) (by decide)⟩

/- ----- C3 : predict scores, argmax, rounding ----- -/

theorem qlt_iff (a b : ℚ) : qlt a b = true ↔ a < b := by
  simp only [qlt, decide_eq_true_eq]
  exact (Rat.lt_def).symm

theorem argmaxIdx_lt (l : List ℚ) (h : l ≠ []) : argmaxIdx l < l.length := by
  induction l with
  | nil => exact absurd rfl h
  | cons x xs ih =>
    cases xs with
    | nil => simp [argmaxIdx]
    | cons y ys =>
      have ihy := ih (by simp)
      simp only [argmaxIdx, List.length_cons]
      split
      · exact Nat.succ_lt_succ ihy
      · exact Nat.succ_pos _

theorem le_getD_argmaxIdx (l : List ℚ) : ∀ x ∈ l, x ≤ l.getD (argmaxIdx l) 0 := by
  induction l with
  | nil => intro x hx; cases hx
  | cons a xs ih =>
    cases xs with
    | nil =>
      intro x hx
      rcases List.mem_singleton.mp hx with rfl
      simp [argmaxIdx]
    | cons y ys =>
      intro x hx
      simp only [argmaxIdx]
      by_cases hq : qlt a ((y :: ys).getD (argmaxIdx (y :: ys)) 0) = true
      · rw [if_pos hq]
        have hgd : (a :: y :: ys).getD (argmaxIdx (y :: ys) + 1) 0
            = (y :: ys).getD (argmaxIdx (y :: ys)) 0 := rfl
        rw [hgd]
        rcases List.mem_cons.mp hx with rfl | hx'
        · exact le_of_lt ((qlt_iff _ _).mp hq)
        · exact ih x hx'
      · rw [if_neg hq]
        have hle : (y :: ys).getD (argmaxIdx (y :: ys)) 0 ≤ a :=
          le_of_not_lt (fun hlt => hq ((qlt_iff _ _).mpr hlt))
        rcases List.mem_cons.mp hx with rfl | hx'
        · exact le_rfl
        · exact le_trans (ih x hx') hle

theorem getD_map_range (f : Nat → α) (n i : Nat) (h : i < n) (d : α) :
    ((List.range n).map f).getD i d = f i := by
  rw [List.getD_eq_getElem?_getD, List.getElem?_map, List.getElem?_range h]
  rfl

theorem map_range_getD (l : List ℚ) :
    (List.range l.length).map (fun i => l.getD i 0) = l := by
  induction l with
  | nil => rfl
  | cons a xs ih =>
    rw [List.length_cons, List.range_succ_eq_map, List.map_cons, List.map_map]
    exact congrArg (a :: ·) ih

/-- Claim C3 counterexample: the claim says the per-class probability
mapping is rounded to 4 decimal digits and the confidence equals the raw
probability mass of the argmax class.  In the code it is the other way
round: only the confidence is rounded (`round(confidence, 4)`), while the
scores dict stores the raw `float(prob)` values.  With probabilities
`[1/3, 2/3]` the returned confidence is `0.6667 ≠ 2/3`, and the stored
score `2/3` is not a 4-decimal-digit value. -/
theorem predict_rounding_counterexample :
    predict ["Bearish", "Bullish"] (fun _ => [mkRat 1 3, mkRat 2 3]) "x" =
      .ok { sentiment := "Bullish", confidence := mkRat 6667 10000,
            scores := [("Bearish", mkRat 1 3), ("Bullish", mkRat 2 3)] } ∧
    mkRat 6667 10000 ≠ mkRat 2 3 ∧
    round4 (mkRat 2 3) ≠ mkRat 2 3 :=
  ⟨rfl, by decide, by decide⟩

/-- Claim C3 (amended): for every non-empty stripped text with a
non-empty probability vector, `predict` returns a record whose score
values are exactly the model's softmax probabilities, unrounded (hence
they sum to 1 whenever the softmax output does); the sentiment is the key
of the entry at the argmax index, that entry's value is maximal among all
scores, and the confidence is THAT value rounded to 4 decimal digits. -/
theorem predict_scores_argmax (labels : List String) (probsOf : String → List ℚ)
    (text : String) (ht : pyStrip text ≠ "") (hp : probsOf (pyStrip text) ≠ []) :
    ∃ r, predict labels probsOf text = .ok r ∧
      r.scores.map Prod.snd = probsOf (pyStrip text) ∧
      (r.scores.getD (argmaxIdx (probsOf (pyStrip text))) ("", 0)).1 = r.sentiment ∧
      r.confidence =
        round4 ((r.scores.getD (argmaxIdx (probsOf (pyStrip text))) ("", 0)).2) ∧
      ∀ p ∈ r.scores,
        p.2 ≤ (r.scores.getD (argmaxIdx (probsOf (pyStrip text))) ("", 0)).2 := by
  set probs := probsOf (pyStrip text) with hprobs
  have hlt : argmaxIdx probs < probs.length := argmaxIdx_lt probs hp
  refine ⟨_, by rw [predict, if_neg ht], ?_, ?_, ?_, ?_⟩
  · rw [List.map_map]
    exact map_range_getD probs
  · rw [getD_map_range _ _ _ hlt]
  · rw [getD_map_range _ _ _ hlt]
  · intro p hp'
    rw [getD_map_range _ _ _ hlt]
    rcases List.mem_map.mp hp' with ⟨i, hi, rfl⟩
    rcases List.mem_range.mp hi with hilt
    have hmem : probs.getD i 0 ∈ probs := by
      rw [List.getD_eq_getElem _ _ hilt]
      exact List.getElem_mem _
    exact le_getD_argmaxIdx probs _ hmem

/-- Claim C3 witness: the amended theorem at a concrete input with
probabilities `[1/4, 1/2, 1/4]`. -/
theorem predict_scores_argmax_witness :
    ∃ r, predict ["Bearish", "Bullish", "Neutral"]
        (fun _ => [mkRat 1 4, mkRat 1 2, mkRat 1 4]) "up" = .ok r ∧
      r.scores.map Prod.snd = [mkRat 1 4, mkRat 1 2, mkRat 1 4] ∧
      (r.scores.getD (argmaxIdx [mkRat 1 4, mkRat 1 2, mkRat 1 4]) ("", 0)).1
        = r.sentiment ∧
      r.confidence =
        round4 ((r.scores.getD (argmaxIdx [mkRat 1 4, mkRat 1 2, mkRat 1 4]) ("", 0)).2) ∧
      ∀ p ∈ r.scores,
        p.2 ≤ (r.scores.getD (argmaxIdx [mkRat 1 4, mkRat 1 2, mkRat 1 4]) ("", 0)).2 :=
  predict_scores_argmax ["Bearish", "Bullish", "Neutral"]
    (fun _ => [mkRat 1 4, mkRat 1 2, mkRat 1 4]) "up" (by decide) (by decide)

/- ----- ModelLoader (infer.py lines 48-113, 277-289) ----- -/

/-- The canonical remote model identifier (`HF_MODEL_ID` in `infer.py`). -/
def HF_MODEL_ID : String := "TADSTech/financial-news-classifier"

/-- The local model directory (`LOCAL_MODEL_PATH` in `infer.py`),
rendered as a string. -/
def LOCAL_MODEL_PATH : String := "src/model/saved/finbert"

/-- Class-level mutable state of the `ModelLoader` singleton: the cached
model, tokenizer and label encoder (each `None` until loaded) and the
target device.  Model and tokenizer handles are abstracted as strings;
the label encoder as its list of class names. -/
structure LoaderState where
  model : Option String
  tokenizer : Option String
  label_encoder : Option (List String)
  device : String
deriving DecidableEq, Repr

/-- External world of `ModelLoader.load_model`: whether the local model
directory passes `check_local_model`, the fallible external loaders
(`AutoTokenizer.from_pretrained`, `AutoModelForSequenceClassification
.from_pretrained`), the local label-encoder path lookup
(`get_label_encoder_path`), the hub download and the pickle read. -/
structure LoadEnv where
  localOk : Bool
  loadTokenizer : String → Except String String
  loadModel : String → Except String String
  encoderLocalPath : Option String
  hubDownload : String → Except String String
  readEncoder : String → Except String (List String)

/-- The model source actually used: the local directory when
`check_local_model()` succeeds, otherwise the passed identifier
(`infer.py`, lines 68-76). -/
def resolveId (env : LoadEnv) (model_id : String) : String :=
  if env.localOk then LOCAL_MODEL_PATH else model_id

/-- Label-encoder resolution inside `load_model` (`infer.py`, lines
84-98): local path when loading locally (an absent local encoder is a
`FileNotFoundError`), hub download otherwise, then the pickle read. -/
def resolveEncoder (env : LoadEnv) (model_id : String) : Except String (List String) :=
  match (if env.localOk then
           match env.encoderLocalPath with
           | some p => Except.ok p
           | none => Except.error "label_encoder.pkl not found in local model directory"
         else env.hubDownload model_id : Except String String) with
  | .error e => .error e
  | .ok p => env.readEncoder p

/-- Shallow embedding of `ModelLoader.load_model` (`infer.py`, lines
61-106).  Mirrors the source's statement order exactly: the target
device is overwritten first whenever a truthy device argument is passed
(before the `_model is None` test and outside the try block); if a model
is already cached nothing else happens; otherwise the tokenizer is
assigned, then the model, then the label encoder, and any failure is
wrapped in `RuntimeError("Failed to load model: ...")` with NO cleanup of
the assignments already made.  The external `model.to(device)` and
`model.eval()` calls have no counterpart in the cached state. -/
def ModelLoader.load_model (env : LoadEnv) (model_id : String) (device : Option String)
    (s : LoaderState) : Except String (String × String × List String) × LoaderState :=
  let s1 := match device with
    | some d => if d = "" then s else { s with device := d }
    | none => s
  match s1.model with
  | some m => (.ok (m, s1.tokenizer.getD "", s1.label_encoder.getD []), s1)
  | none =>
    let rid := resolveId env model_id
    match env.loadTokenizer rid with
    | .error e => (.error ("Failed to load model: " ++ e), s1)
    | .ok tok =>
      let s2 := { s1 with tokenizer := some tok }
      match env.loadModel rid with
      | .error e => (.error ("Failed to load model: " ++ e), s2)
      | .ok m =>
        let s3 := { s2 with model := some m }
        match resolveEncoder env rid with
        | .error e => (.error ("Failed to load model: " ++ e), s3)
        | .ok enc => (.ok (m, tok, enc), { s3 with label_encoder := some enc })

/-- Shallow embedding of `ModelLoader.get_model` (`infer.py`, lines
108-113): lazily loads with the default identifier, then returns the
cached references together with the device. -/
def ModelLoader.get_model (env : LoadEnv) (s : LoaderState) :
    Except String (String × String × List String × String) × LoaderState :=
  match s.model with
  | some m => (.ok (m, s.tokenizer.getD "", s.label_encoder.getD [], s.device), s)
  | none =>
    match ModelLoader.load_model env HF_MODEL_ID none s with
    | (.ok (m, tok, enc), s') => (.ok (m, tok, enc, s'.device), s')
    | (.error e, s') => (.error e, s')

/-- Shallow embedding of `set_device` (`infer.py`, lines 277-289):
exactly `"cpu"` and `"cuda"` are accepted and stored; anything else
raises `ValueError` and leaves the state untouched. -/
def set_device (device : String) (s : LoaderState) : Except String Unit × LoaderState :=
  if device = "cpu" ∨ device = "cuda" then (.ok (), { s with device := device })
  else (.error "Device must be one of ['cpu', 'cuda']", s)

/-- The fresh, unloaded loader state (module import time). -/
def initialState : LoaderState :=
  { model := none, tokenizer := none, label_encoder := none, device := "cpu" }

/- ----- C4 / C5 / C6 / C10 : loader state machine ----- -/

/-- Environment whose tokenizer load succeeds and whose model load
fails. -/
def envModelFails : LoadEnv :=
  { localOk := false
    loadTokenizer := fun _ => .ok "tok"
    loadModel := fun _ => .error "boom"
    encoderLocalPath := none
    hubDownload := fun _ => .ok "enc-path"
    readEncoder := fun _ => .ok ["Bearish", "Bullish", "Neutral"] }

/-- Environment where every external load succeeds. -/
def envAllOk : LoadEnv :=
  { localOk := false
    loadTokenizer := fun _ => .ok "tok"
    loadModel := fun _ => .ok "net"
    encoderLocalPath := none
    hubDownload := fun _ => .ok "enc-path"
    readEncoder := fun _ => .ok ["Bearish", "Bullish", "Neutral"] }

/-- A state in which a model is already cached. -/
def loadedState : LoaderState :=
  { model := some "net", tokenizer := some "tok",
    label_encoder := some ["Bearish", "Bullish", "Neutral"], device := "cpu" }

/-- Claim C4 counterexample: the claim says a failed load leaves no
reference set to a stale value.  Starting unloaded, with a tokenizer that
loads and a model load that fails, `load_model` surfaces the wrapped
error but leaves the freshly assigned tokenizer reference cached: the
final state has `tokenizer = some "tok"`, not `none`. -/
theorem load_model_stale_tokenizer_counterexample :
    ModelLoader.load_model envModelFails "m" none initialState =
      (.error "Failed to load model: boom",
        { initialState with tokenizer := some "tok" }) ∧
    ({ initialState with tokenizer := some "tok" } : LoaderState).tokenizer ≠ none :=
  ⟨rfl, by decide⟩

/-- Claim C4 (amended): when `load_model` fails partway from the unloaded
state the error is surfaced, but every reference assigned before the
failing step is retained: a tokenizer-step failure leaves the state
unchanged; a model-step failure keeps the stale tokenizer (the model
stays unset); a label-encoder-step failure keeps both the model and the
tokenizer, so the engine afterwards even counts as loaded. -/
theorem load_model_failure_states (env : LoadEnv) (mid : String) (s : LoaderState)
    (hm : s.model = none) :
    (∀ e, env.loadTokenizer (resolveId env mid) = .error e →
      ModelLoader.load_model env mid none s = (.error ("Failed to load model: " ++ e), s)) ∧
    (∀ tok e, env.loadTokenizer (resolveId env mid) = .ok tok →
      env.loadModel (resolveId env mid) = .error e →
      ModelLoader.load_model env mid none s =
        (.error ("Failed to load model: " ++ e), { s with tokenizer := some tok })) ∧
    (∀ tok m e, env.loadTokenizer (resolveId env mid) = .ok tok →
      env.loadModel (resolveId env mid) = .ok m →
      resolveEncoder env (resolveId env mid) = .error e →
      ModelLoader.load_model env mid none s =
        (.error ("Failed to load model: " ++ e),
          { s with tokenizer := some tok, model := some m })) := by
  refine ⟨fun e he => ?_, fun tok e htok he => ?_, fun tok m e htok hmod he => ?_⟩
  · simp [ModelLoader.load_model, hm, he]
  · simp [ModelLoader.load_model, hm, htok, he]
  · simp [ModelLoader.load_model, hm, htok, hmod, he]

/-- Claim C4 witness: the model-step-failure case of the amended theorem
at the concrete environment `envModelFails`. -/
theorem load_model_failure_states_witness :
    ModelLoader.load_model envModelFails "m" none initialState =
      (.error "Failed to load model: boom",
        { initialState with tokenizer := some "tok" }) :=
  (load_model_failure_states envModelFails "m" initialState rfl).2.1 "tok" "boom" rfl rfl

/-- Claim C5: once a model is cached, `load_model` is a no-op on the
cached artifacts — whatever identifier or environment is passed, it
returns the cached triple and changes none of the model, tokenizer or
label-encoder references, and `get_model` (used by every prediction)
returns the cached instance with the state unchanged. -/
theorem load_model_idempotent (env : LoadEnv) (mid : String) (dev : Option String)
    (s : LoaderState) (m : String) (h : s.model = some m) :
    (ModelLoader.load_model env mid dev s).1 =
      .ok (m, s.tokenizer.getD "", s.label_encoder.getD []) ∧
    (ModelLoader.load_model env mid dev s).2.model = some m ∧
    (ModelLoader.load_model env mid dev s).2.tokenizer = s.tokenizer ∧
    (ModelLoader.load_model env mid dev s).2.label_encoder = s.label_encoder ∧
    ModelLoader.get_model env s =
      (.ok (m, s.tokenizer.getD "", s.label_encoder.getD [], s.device), s) := by
  cases dev with
  | none => exact ⟨by simp [ModelLoader.load_model, h], by simp [ModelLoader.load_model, h],
      by simp [ModelLoader.load_model, h], by simp [ModelLoader.load_model, h],
      by simp [ModelLoader.get_model, h]⟩
  | some d =>
    by_cases hd : d = ""
    · exact ⟨by simp [ModelLoader.load_model, hd, h], by simp [ModelLoader.load_model, hd, h],
        by simp [ModelLoader.load_model, hd, h], by simp [ModelLoader.load_model, hd, h],
        by simp [ModelLoader.get_model, h]⟩
    · exact ⟨by simp [ModelLoader.load_model, hd, h], by simp [ModelLoader.load_model, hd, h],
        by simp [ModelLoader.load_model, hd, h], by simp [ModelLoader.load_model, hd, h],
        by simp [ModelLoader.get_model, h]⟩

/-- Claim C5 witness: a second load with a DIFFERENT identifier on an
already-loaded state returns the cached triple and leaves the artifacts
untouched. -/
theorem load_model_idempotent_witness :
    (ModelLoader.load_model envModelFails "a/completely-different-model" none loadedState).1 =
      .ok ("net", "tok", ["Bearish", "Bullish", "Neutral"]) ∧
    (ModelLoader.load_model envModelFails "a/completely-different-model" none loadedState).2.model
      = some "net" ∧
    (ModelLoader.load_model envModelFails "a/completely-different-model" none
      loadedState).2.tokenizer = some "tok" ∧
    (ModelLoader.load_model envModelFails "a/completely-different-model" none
      loadedState).2.label_encoder = some ["Bearish", "Bullish", "Neutral"] ∧
    ModelLoader.get_model envModelFails loadedState =
      (.ok ("net", "tok", ["Bearish", "Bullish", "Neutral"], "cpu"), loadedState) :=
  load_model_idempotent envModelFails "a/completely-different-model" none loadedState "net" rfl

/-- Claim C6: `set_device` succeeds exactly on `"cpu"` and `"cuda"`,
storing the device for the next lazy load, and fails with `ValueError`
on every other string leaving the state unchanged; in both cases the
cached model, tokenizer and label-encoder references are untouched. -/
theorem set_device_valid_devices (d : String) (s : LoaderState) :
    ((d = "cpu" ∨ d = "cuda") → set_device d s = (.ok (), { s with device := d })) ∧
    (¬(d = "cpu" ∨ d = "cuda") →
      set_device d s = (.error "Device must be one of ['cpu', 'cuda']", s)) ∧
    (set_device d s).2.model = s.model ∧
    (set_device d s).2.tokenizer = s.tokenizer ∧
    (set_device d s).2.label_encoder = s.label_encoder := by
  by_cases h : d = "cpu" ∨ d = "cuda"
  · exact ⟨fun _ => by simp [set_device, h], fun h' => absurd h h',
      by simp [set_device, h], by simp [set_device, h], by simp [set_device, h]⟩
  · exact ⟨fun h' => absurd h' h, fun _ => by simp [set_device, h],
      by simp [set_device, h], by simp [set_device, h], by simp [set_device, h]⟩

/-- Claim C6 witness: `set_device "tpu"` fails and leaves the loaded
state unchanged; `set_device "cpu"` succeeds and only changes the stored
device. -/
theorem set_device_valid_devices_witness :
    set_device "tpu" loadedState =
      (.error "Device must be one of ['cpu', 'cuda']", loadedState) ∧
    set_device "cpu" loadedState = (.ok (), { loadedState with device := "cpu" }) :=
  ⟨(set_device_valid_devices "tpu" loadedState).2.1 (by decide),
   (set_device_valid_devices "cpu" loadedState).1 (Or.inl rfl)⟩

/-- Claim C10: calling `load_model` with a (truthy) device argument while
a model is already cached still overwrites the stored target device —
the assignment `cls._device = torch.device(device)` runs before the
`_model is None` test — while the cached model, tokenizer and
label-encoder references are returned and left unchanged. -/
theorem load_model_overwrites_device (env : LoadEnv) (mid d : String) (s : LoaderState)
    (m : String) (hm : s.model = some m) (hd : d ≠ "") :
    ModelLoader.load_model env mid (some d) s =
      (.ok (m, s.tokenizer.getD "", s.label_encoder.getD []), { s with device := d }) := by
  simp [ModelLoader.load_model, hd, hm]

/-- Claim C10 witness: a loaded state on `"cpu"`; a redundant load call
passing `"cuda"` returns the cached artifacts but flips the stored
device to `"cuda"`. -/
theorem load_model_overwrites_device_witness :
    ModelLoader.load_model envAllOk "other" (some "cuda") loadedState =
      (.ok ("net", "tok", ["Bearish", "Bullish", "Neutral"]),
        { loadedState with device := "cuda" }) ∧
    loadedState.device = "cpu" :=
  ⟨load_model_overwrites_device envAllOk "other" "cuda" loadedState "net" rfl (by decide),
   rfl⟩

/- ----- io_utils.py : load_file / save_results ----- -/

/-- JSON documents as far as `io_utils.py` manipulates them (the external
`json` library serialises and parses these faithfully, so a written file
is modelled as holding the document itself). -/
inductive JVal where
  | str (v : String)
  | num (v : ℚ)
  | obj (fields : List (String × JVal))
  | arr (items : List JVal)

/-- Python `str(...)` rendering of a JSON value as used by `load_file`.
String values render as themselves — the only case the repository's own
records produce; the rendering of numbers and composite values by
Python's `str` is abstracted as a placeholder since no claim reaches
it. -/
def pyStr : JVal → String
  | .str v => v
  | .num _ => "<number>"
  | .obj _ => "<dict>"
  | .arr _ => "<list>"

/-- Parsed content of a regular file, per format family: a delimited
table (header columns and data rows, as `pandas.read_csv` yields them,
cells already stringified as `astype(str)` does), a JSON document, or
raw text lines (not yet stripped). -/
inductive Content where
  | csv (cols : List String) (rows : List (List String))
  | json (v : JVal)
  | txt (lines : List String)

/-- What the file system holds at a path. -/
inductive Node where
  | absent
  | directory
  | file (c : Content)

/-- Error taxonomy of `load_file`, one constructor per raise site:
`fileNotFound` is the `FileNotFoundError` (spec `NotFound`); `notAFile`
the path-is-not-a-file `ValueError` (spec `NotAFile`); `csvEmpty` the
"CSV file is empty" `ValueError` and `noValidText` the "No valid text
data found" `ValueError` (both spec `EmptyInput`); `unsupportedFormat`
the "Unsupported format" `ValueError`; `columnNotFound` the missing
column `ValueError` (spec `NotFound`); `invalidJsonStructure` the
"Invalid JSON structure" `ValueError`; `parseError` stands for the
external parser failing on malformed bytes, which `load_file` re-raises
unchanged. -/
inductive LoadErr where
  | fileNotFound
  | notAFile
  | csvEmpty
  | columnNotFound
  | invalidJsonStructure
  | unsupportedFormat
  | noValidText
  | parseError
deriving DecidableEq, Repr

/-- Split a character list on a separator character; models Python
`str.split(sep)` for a one-character separator. -/
def splitOnChar (sep : Char) : List Char → List (List Char)
  | [] => [[]]
  | c :: cs =>
    let r := splitOnChar sep cs
    if c = sep then [] :: r
    else
      match r with
      | [] => [[c]]
      | g :: gs => (c :: g) :: gs

/-- Models `pathlib.Path(path).suffix.lower()`: the (lowercased) last
dot-suffix of the final path component, empty for dotless names and for
hidden files like `.bashrc`. -/
def extOf (path : String) : String :=
  let name := (splitOnChar '/' path.data).getLastD []
  match splitOnChar '.' name with
  | [] => ""
  | [_] => ""
  | parts =>
    if parts.length = 2 ∧ parts.getD 0 [] = ([] : List Char) then ""
    else ⟨'.' :: (parts.getLastD []).map Char.toLower⟩

/-- Common text-bearing column names tried by the CSV auto-detection
(`io_utils.py`, line 53). -/
def common_names : List String :=
  ["text", "content", "title", "sentence", "message", "body"]

/-- Values of column `c` in the rows of a delimited table. -/
def colValues (cols : List String) (rows : List (List String)) (c : String) : List String :=
  rows.map (fun r => r.getD (cols.indexOf c) "")

/-- CSV branch of `load_file` (`io_utils.py`, lines 40-62): empty
dataframe error first, then explicit-column check, then common-name
auto-detection falling back to the first column. -/
def csvExtract (column : Option String) (cols : List String) (rows : List (List String)) :
    Except LoadErr (List String) :=
  if rows = [] then .error .csvEmpty
  else
    match column with
    | some c => if c ∈ cols then .ok (colValues cols rows c) else .error .columnNotFound
    | none =>
      .ok (colValues cols rows ((common_names.find? (fun n => cols.contains n)).getD
        (cols.getD 0 "")))

/-- JSON branch of `load_file` (`io_utils.py`, lines 64-80).  A bare
list takes `str(item)` for scalars and `str(item.get("text", item))` for
objects (a list item that is itself a list makes Python's `.get` raise,
modelled as the propagated `parseError`); an object uses its `"text"`
field, else its `"items"` list, else all its values stringified; a bare
scalar is the "Invalid JSON structure" error. -/
def jsonExtract : JVal → Except LoadErr (List String)
  | .arr items =>
    items.mapM (fun item =>
      match item with
      | .str s => .ok s
      | .num q => .ok (pyStr (.num q))
      | .obj fields => .ok (pyStr (((fields.lookup "text").getD (.obj fields))))
      | .arr _ => .error .parseError)
  | .obj fields =>
    if (fields.lookup "text").isSome then
      .ok [pyStr ((fields.lookup "text").getD (.str ""))]
    else if (fields.lookup "items").isSome then
      match (fields.lookup "items").getD (.str "") with
      | .arr items =>
        items.mapM (fun item =>
          match item with
          | .obj f2 => .ok (pyStr ((f2.lookup "text").getD (.obj f2)))
          | .str s => .ok (pyStr ((.str s : JVal)))
          | _ => .error .parseError)
      | _ => .error .parseError
    else .ok (fields.map (fun f => pyStr f.2))
  | .str _ => .error .invalidJsonStructure
  | .num _ => .error .invalidJsonStructure

/-- Format dispatch of `load_file` (`io_utils.py`, lines 36-88): by the
lowercased extension; `.txt`/`.md` lines are stripped; any other
extension is the unsupported-format error.  Content whose shape does not
match the extension stands for a file the external parser rejects. -/
def extractTexts (column : Option String) (ext : String) (c : Content) :
    Except LoadErr (List String) :=
  if ext = ".csv" then
    match c with
    | .csv cols rows => csvExtract column cols rows
    | _ => .error .parseError
  else if ext = ".json" then
    match c with
    | .json v => jsonExtract v
    | _ => .error .parseError
  else if ext = ".txt" ∨ ext = ".md" then
    match c with
    | .txt lines => .ok (lines.map pyStrip)
    | _ => .error .parseError
  else .error .unsupportedFormat

/-- Shallow embedding of `load_file` (`io_utils.py`, lines 11-102):
existence and regular-file checks, extension dispatch, then — with
`skip_empty` — the filter `t and len(t.strip()) > 0`, and the final
no-valid-data check. -/
def load_file (fs : String → Node) (path : String) (column : Option String)
    (skip_empty : Bool) : Except LoadErr (List String) :=
  match fs path with
  | .absent => .error .fileNotFound
  | .directory => .error .notAFile
  | .file c =>
    match extractTexts column (extOf path) c with
    | .error e => .error e
    | .ok texts =>
      let texts := if skip_empty
        then texts.filter (fun t => !(t == "") && !(pyStrip t == ""))
        else texts
      if texts = [] then .error .noValidText else .ok texts

/-- One prediction record as serialised by `save_results`
(`io_utils.py`, line 124): an object with the keys `text`, `sentiment`,
`confidence` in that order. -/
def resultToJson (r : BatchRecord) : JVal :=
  .obj [("text", .str r.text), ("sentiment", .str r.sentiment),
        ("confidence", .num r.confidence)]

/-- Python `str(float)` rendering, abstracted (only the csv/txt sinks
use it and no claim inspects those renderings). -/
def pyFloatStr (q : ℚ) : String := pyStr (.num q)

/-- Shallow embedding of `save_results` (`io_utils.py`, lines 105-140):
produces the content of the written file per format, or the
unsupported-format `ValueError`.  Parent-directory creation is a file
system effect with no bearing on the content. -/
def save_results (results : List BatchRecord) (format : String) : Except String Content :=
  if format = "csv" then
    .ok (.csv ["text", "sentiment", "confidence"]
      (results.map (fun r => [r.text, r.sentiment, pyFloatStr r.confidence])))
  else if format = "json" then
    .ok (.json (.arr (results.map resultToJson)))
  else if format = "txt" then
    .ok (.txt ((results.map (fun r =>
      ["Text: " ++ r.text, "Sentiment: " ++ r.sentiment,
       "Confidence: " ++ pyFloatStr r.confidence,
       String.mk (List.replicate 80 '-')])).flatten))
  else .error ("Unsupported format: " ++ format)

/-- Write records to the JSON format with `save_results`, put the
resulting document in a file `results.json`, and read it back with
`load_file` (defaults: no column, `skip_empty = True`). -/
def roundTripJson (results : List BatchRecord) : Except LoadErr (List String) :=
  match save_results results "json" with
  | .ok c => load_file (fun _ => Node.file c) "results.json" none true
  | .error _ => .error .parseError

/- ----- C7 : load_file error taxonomy ----- -/

/-- Claim C7: `load_file` fails with `FileNotFoundError` when the path
does not exist and with the not-a-file `ValueError` when it is not a
regular file (both checked before anything else); with the
unsupported-format `ValueError` for any extension outside `.csv`,
`.json`, `.txt`, `.md`; with the "CSV file is empty" `ValueError` for a
delimited file with zero data rows; and with the "No valid text data"
`ValueError` when the extracted texts contain no non-empty entry after
stripping. -/
theorem load_file_error_taxonomy (fs : String → Node) (path : String)
    (column : Option String) (sk : Bool) :
    (fs path = .absent → load_file fs path column sk = .error .fileNotFound) ∧
    (fs path = .directory → load_file fs path column sk = .error .notAFile) ∧
    (∀ c, fs path = .file c → extOf path ∉ [".csv", ".json", ".txt", ".md"] →
      load_file fs path column sk = .error .unsupportedFormat) ∧
    (∀ cols, fs path = .file (.csv cols []) → extOf path = ".csv" →
      load_file fs path column sk = .error .csvEmpty) ∧
    (∀ c ts, fs path = .file c → extractTexts column (extOf path) c = .ok ts →
      ts.filter (fun t => !(t == "") && !(pyStrip t == "")) = [] → sk = true →
      load_file fs path column sk = .error .noValidText) := by
  refine ⟨fun h => by simp [load_file, h],
          fun h => by simp [load_file, h],
          fun c hc hext => ?_,
          fun cols hc hext => ?_,
          fun c ts hc hex hfil hsk => ?_⟩
  · have h1 : extOf path ≠ ".csv" := fun h => hext (by simp [h])
    have h2 : extOf path ≠ ".json" := fun h => hext (by simp [h])
    have h3 : extOf path ≠ ".txt" := fun h => hext (by simp [h])
    have h4 : extOf path ≠ ".md" := fun h => hext (by simp [h])
    simp [load_file, hc, extractTexts, h1, h2, h3, h4]
  · simp [load_file, hc, extractTexts, hext, csvExtract]
  · subst hsk
    simp [load_file, hc, hex, hfil]

/-- File system used by the C7 witness. -/
def fs0 : String → Node := fun p =>
  if p = "data.xyz" then .file (.txt ["hello"])
  else if p = "empty.csv" then .file (.csv ["text"] [])
  else if p = "blank.txt" then .file (.txt ["   ", ""])
  else if p = "somedir" then .directory
  else .absent

/-- Claim C7 witness: each failure of the taxonomy at a concrete path —
a missing path, a directory, a `.xyz` extension, a header-only CSV, and
a text file with only blank lines. -/
theorem load_file_error_taxonomy_witness :
    load_file fs0 "missing.csv" none true = .error .fileNotFound ∧
    load_file fs0 "somedir" none true = .error .notAFile ∧
    load_file fs0 "data.xyz" none true = .error .unsupportedFormat ∧
    load_file fs0 "empty.csv" none true = .error .csvEmpty ∧
    load_file fs0 "blank.txt" none true = .error .noValidText :=
  ⟨(load_file_error_taxonomy fs0 "missing.csv" none true).1 rfl,
   (load_file_error_taxonomy fs0 "somedir" none true).2.1 rfl,
   (load_file_error_taxonomy fs0 "data.xyz" none true).2.2.1 (.txt ["hello"]) rfl (by decide),
   (load_file_error_taxonomy fs0 "empty.csv" none true).2.2.2.1 ["text"] rfl (by decide),
   (load_file_error_taxonomy fs0 "blank.txt" none true).2.2.2.2 (.txt ["   ", ""])
     ["", ""] rfl rfl rfl rfl⟩

/- ----- C9 : save/load round trip ----- -/

theorem jsonExtract_resultToJson (results : List BatchRecord) :
    jsonExtract (.arr (results.map resultToJson)) = .ok (results.map (fun r => r.text)) := by
  induction results with
  | nil => rfl
  | cons r rs ih =>
    simp only [jsonExtract, List.map_cons, List.mapM_cons] at ih ⊢
    rw [ih]
    rfl

/-- Claim C9 counterexample: the claim says reading the written JSON file
back yields records with identical text, sentiment and confidence.
`load_file` returns only a list of strings — the `text` fields — so two
record lists that differ in sentiment and confidence read back as the
same value, and neither sentiment nor confidence can be recovered. -/
theorem roundtrip_loses_fields_counterexample :
    roundTripJson [{ text := "h", sentiment := "Bullish", confidence := mkRat 9 10 }]
      = .ok ["h"] ∧
    roundTripJson [{ text := "h", sentiment := "Bearish", confidence := mkRat 1 10 }]
      = .ok ["h"] ∧
    ("Bullish" : String) ≠ "Bearish" ∧ mkRat 9 10 ≠ mkRat 1 10 :=
  ⟨rfl, rfl, by decide, by decide⟩

/-- Claim C9 (amended): writing N prediction records — each with text
that is non-empty after stripping — to the JSON format and reading the
file back with `load_file` yields exactly the N `text` fields, in order;
the `sentiment` and `confidence` fields are serialised but not
reconstructed, since `load_file` extracts only the `"text"` entry of
each object. -/
theorem roundTripJson_texts (results : List BatchRecord) (hne : results ≠ [])
    (hall : ∀ r ∈ results, (!(r.text == "") && !(pyStrip r.text == "")) = true) :
    roundTripJson results = .ok (results.map (fun r => r.text)) := by
  have hsave : save_results results "json" = .ok (.json (.arr (results.map resultToJson))) := rfl
  have hext : extractTexts none (extOf "results.json")
      (.json (.arr (results.map resultToJson)))
      = jsonExtract (.arr (results.map resultToJson)) := rfl
  have hfil : (results.map (fun r => r.text)).filter
      (fun t => !(t == "") && !(pyStrip t == "")) = results.map (fun r => r.text) := by
    rw [List.filter_eq_self]
    intro t ht
    rcases List.mem_map.mp ht with ⟨r, hr, rfl⟩
    exact hall r hr
  have hnil : results.map (fun r => r.text) ≠ [] := by
    simpa using hne
  rw [roundTripJson, hsave]
  simp only [load_file, hext, jsonExtract_resultToJson, hfil, if_true]
  simp [hnil, hfil]

/-- Claim C9 witness: the amended theorem at two concrete records. -/
theorem roundTripJson_texts_witness :
    roundTripJson [{ text := "up", sentiment := "Bullish", confidence := mkRat 9 10 },
                   { text := "down", sentiment := "Bearish", confidence := mkRat 3 5 }]
      = .ok ["up", "down"] :=
  roundTripJson_texts
    [{ text := "up", sentiment := "Bullish", confidence := mkRat 9 10 },
     { text := "down", sentiment := "Bearish", confidence := mkRat 3 5 }]
    (by decide) (by decide)

/- ----- rss.py : fetch_rss ----- -/

/-- Split a character list at the first occurrence of a separator. -/
def splitFirst (sep : Char) : List Char → Option (List Char × List Char)
  | [] => none
  | c :: cs =>
    if c = sep then some ([], cs)
    else
      match splitFirst sep cs with
      | none => none
      | some (a, b) => some (c :: a, b)

/-- Valid URL scheme per `urllib.parse`: a letter followed by letters,
digits, `+`, `-` or `.`. -/
def schemeValid : List Char → Bool
  | [] => false
  | c :: cs => c.isAlpha && cs.all (fun d => d.isAlphanum || d == '+' || d == '-' || d == '.')

/-- The `(scheme, netloc)` components of `urllib.parse.urlparse`, as far
as `fetch_rss` consults them: the lowercased scheme before the first
colon when well formed, and the authority after `//` up to the next
`/`, `?` or `#`. -/
def urlSchemeNetloc (url : String) : String × String :=
  let p :=
    match splitFirst ':' url.data with
    | some (pre, post) =>
      if schemeValid pre then (pre.map Char.toLower, post) else ([], url.data)
    | none => ([], url.data)
  let netloc :=
    match p.2 with
    | '/' :: '/' :: tail => tail.takeWhile (fun c => !(c == '/' || c == '?' || c == '#'))
    | _ => []
  (⟨p.1⟩, ⟨netloc⟩)

/-- One entry of a parsed feed, fields as `feedparser` exposes them
(`entry.get` with fallbacks in the source). -/
structure FeedEntry where
  title : Option String
  link : Option String
  published : Option String
  summary : Option String
deriving DecidableEq, Repr

/-- A parsed feed: the malformed-input flag, the entries, and the
feed-level title. -/
structure Feed where
  bozo : Bool
  entries : List FeedEntry
  title : Option String
deriving DecidableEq, Repr

/-- One entry of the `fetch_rss` result (`rss.py`, lines 52-58). -/
structure RssItem where
  title : String
  link : String
  published : String
  summary : String
  source : String
deriving DecidableEq, Repr

/-- Shallow embedding of `fetch_rss` (`rss.py`, lines 10-69).  The
network and feed parser are the environment `net`; `now` is the
`datetime.now().isoformat()` fallback for a missing published date.
Mirrors the source: URL validation first (`scheme` and `netloc` must
both be non-empty, otherwise `ValueError`); an entry-less feed returns
`[]` immediately (a bozo feed only logs a warning); otherwise entries
are capped by a truthy `max_entries` (0 means no cap, as in Python) and
entries without a usable title are dropped. -/
def fetch_rss (net : String → Feed) (now : String) (url : String)
    (max_entries : Option Nat) : Except String (List RssItem) :=
  let sn := urlSchemeNetloc url
  if sn.1 = "" ∨ sn.2 = "" then .error "Invalid URL: Invalid URL format"
  else
    let feed := net url
    if feed.entries = [] then .ok []
    else
      let capped := match max_entries with
        | some m => if m = 0 then feed.entries else feed.entries.take m
        | none => feed.entries
      .ok (capped.filterMap (fun e =>
        let t := (e.title).getD "N/A"
        if t ≠ "" ∧ t ≠ "N/A" then
          some { title := t, link := (e.link).getD "",
                 published := (e.published).getD now,
                 summary := (e.summary).getD "",
                 source := (feed.title).getD "Unknown Feed" }
        else none))

/-- Claim C8: `fetch_rss` fails with the invalid-URL `ValueError`
whenever the URL lacks a scheme or a host, and for a well-formed URL
whose feed parses to zero entries it returns the empty list rather than
an error. -/
theorem fetch_rss_url_and_empty_feed (net : String → Feed) (now url : String)
    (m : Option Nat) :
    ((urlSchemeNetloc url).1 = "" ∨ (urlSchemeNetloc url).2 = "" →
      fetch_rss net now url m = .error "Invalid URL: Invalid URL format") ∧
    ((urlSchemeNetloc url).1 ≠ "" → (urlSchemeNetloc url).2 ≠ "" →
      (net url).entries = [] → fetch_rss net now url m = .ok []) := by
  constructor
  · intro h
    simp [fetch_rss, h]
  · intro h1 h2 hempty
    have hor : ¬((urlSchemeNetloc url).1 = "" ∨ (urlSchemeNetloc url).2 = "") := by
      rintro (h | h)
      · exact h1 h
      · exact h2 h
    simp [fetch_rss, hor, hempty]

/-- A network returning an entry-less feed for every URL. -/
def emptyNet : String → Feed := fun _ => { bozo := false, entries := [], title := some "F" }

/-- Claim C8 witness: `"example.com/feed"` (no scheme) and `"http://"`
(no host) are rejected; `"http://example.com/feed"` with an entry-less
feed yields `[]`. -/
theorem fetch_rss_url_and_empty_feed_witness :
    fetch_rss emptyNet "2026-10-12" "example.com/feed" none
      = .error "Invalid URL: Invalid URL format" ∧
    fetch_rss emptyNet "2026-10-12" "http://" none
      = .error "Invalid URL: Invalid URL format" ∧
    fetch_rss emptyNet "2026-10-12" "http://example.com/feed" none = .ok [] :=
  ⟨(fetch_rss_url_and_empty_feed emptyNet "2026-10-12" "example.com/feed" none).1
     (by decide),
   (fetch_rss_url_and_empty_feed emptyNet "2026-10-12" "http://" none).1 (by decide),
   (fetch_rss_url_and_empty_feed emptyNet "2026-10-12" "http://example.com/feed" none).2
     (by decide) (by decide) rfl⟩
